import Mathlib

/-!
# Verification of the `logan` remote-dashboard core

Shallow embedding of the remote command/metrics acquisition layer of the
`logan` repository (Flask dashboard controlling Docker containers on a
remote host over SSH), together with proofs settling the frozen claims
about it.

Conventions used throughout the embedding:

* Python exceptions are modelled with `Except`/`Option`; a `try/except`
  wrapper is a `match` on the embedded body's result.
* Machine integers are `Int`/`Nat` (Python integers are unbounded, so no
  wrap-around modelling is needed). The only float data in scope comes
  from short decimal numerals; it is represented exactly as a pair
  (mantissa, number-of-decimals), i.e. the value mantissa / 10 ^ decimals,
  which coincides with Python float arithmetic on every value these
  code paths handle.
* Wall-clock instants are seconds as `Int`; `datetime` subtraction gives
  an elapsed amount whose Python `timedelta.seconds` component is the
  value modulo 86400 (`Int.emod`, matching Python's sign convention).
* Source line references are to the files under `app/` of the repository.
-/

namespace Logan

/-- Python exception kinds that the embedded code can raise. -/
inductive PyErr where
  | attributeError
  | keyError
  | valueError
  | typeError
  deriving Repr, DecidableEq

/-- Python string truthiness: the empty string is falsy. -/
def pyTruthy (s : String) : Bool := !(s == "")

/-- Truthiness of an optional string (`dict.get` result): `None` and `""` are falsy. -/
def pyTruthyOpt (s : Option String) : Bool :=
  match s with
  | none => false
  | some v => pyTruthy v

/-- `pat` occurs as a contiguous sublist of `s` (Python's `pat in s` on strings). -/
def charsContain (s pat : List Char) : Bool :=
  (pat.isPrefixOf s) ||
    match s with
    | [] => false
    | _ :: t => charsContain t pat

/-- Python `needle in hay` for strings. -/
def strContains (hay needle : String) : Bool := charsContain hay.data needle.data

/-- ASCII upper-casing of one character (`str.upper` on the ASCII data in scope). -/
def asciiUpper (c : Char) : Char :=
  if 'a' ≤ c && c ≤ 'z' then Char.ofNat (c.toNat - 32) else c

/-- ASCII lower-casing of one character (`str.lower` on the ASCII data in scope). -/
def asciiLower (c : Char) : Char :=
  if 'A' ≤ c && c ≤ 'Z' then Char.ofNat (c.toNat + 32) else c

/-- Python `str.lower()`. -/
def strLower (s : String) : String := ⟨s.data.map asciiLower⟩

/-- Python `str.strip()`: drop whitespace from both ends. -/
def trimChars (cs : List Char) : List Char :=
  ((cs.dropWhile Char.isWhitespace).reverse.dropWhile Char.isWhitespace).reverse

/-- An exactly-represented decimal value mantissa / 10 ^ decimals. -/
structure DecimalVal where
  mantissa : Int
  decimals : Nat
  deriving Repr, DecidableEq

/-- Numeric value of a digit run; `none` once a non-digit appears. -/
def digitsVal? (cs : List Char) : Option Nat :=
  cs.foldl
    (fun acc c =>
      match acc with
      | none => none
      | some n => if c.isDigit then some (n * 10 + (c.toNat - 48)) else none)
    (some 0)

/-- Model of Python `float(s)` restricted to the plain decimal numerals
`[+-]? digits [. digits]` that this code base ever feeds it; any other
input (letters, empty string, exponent forms, ...) yields `none`, standing
for the `ValueError` that `float` raises there. -/
def pyFloat? (cs : List Char) : Option DecimalVal :=
  let cs := trimChars cs
  let signed : Int × List Char :=
    match cs with
    | '+' :: t => (1, t)
    | '-' :: t => (-1, t)
    | t => (1, t)
  let sign := signed.1
  let rest := signed.2
  let intPart := rest.takeWhile Char.isDigit
  let afterInt := rest.drop intPart.length
  match afterInt with
  | [] =>
      if intPart.isEmpty then none
      else (digitsVal? intPart).map (fun n => ⟨sign * n, 0⟩)
  | '.' :: frac =>
      if frac.all Char.isDigit && !(intPart.isEmpty && frac.isEmpty) then
        match digitsVal? intPart, digitsVal? frac with
        | some i, some f =>
            some ⟨sign * (i * 10 ^ frac.length + f), frac.length⟩
        | _, _ => none
      else none
  | _ => none

/-- Python `int(v)` on a float value: truncation toward zero. -/
def DecimalVal.toPyInt (v : DecimalVal) : Int :=
  Int.tdiv v.mantissa ((10 : Int) ^ v.decimals)

/-- Scaling a decimal value by an integer multiplier (`value * multiplier`),
exact for every value these code paths handle. -/
def DecimalVal.scale (v : DecimalVal) (m : Int) : DecimalVal :=
  ⟨v.mantissa * m, v.decimals⟩

/-!
## `DockerService._parse_memory_string` (docker_service.py lines 227-255)
-/

/-- The `units` dict of `_parse_memory_string`, in its insertion order
(Python 3.7+ dicts iterate in insertion order, so `'B'` is tried first). -/
def memUnits : List (String × Int) :=
  [("B", 1), ("KB", 1024), ("MB", 1024 ^ 2), ("GB", 1024 ^ 3), ("TB", 1024 ^ 4)]

/-- `DockerService._parse_memory_string`: convert a memory string to bytes.
Empty string and `"0B"` short-circuit to `0`; otherwise the input is
stripped and upper-cased and the first unit whose text is a suffix of it
wins — a failed `float` conversion of the remaining prefix yields `0`
(the `except ValueError: return 0` inside the loop); with no matching unit
the whole string is tried as a plain number, `0` on failure. -/
def parseMemoryString (memStr : String) : Int :=
  if memStr == "" || memStr == "0B" then 0
  else
    let m : List Char := (trimChars memStr.data).map asciiUpper
    let viaUnit := memUnits.findSome? (fun u =>
      if u.1.data.isSuffixOf m then
        some (match pyFloat? (m.take (m.length - u.1.length)) with
          | some v => (v.scale u.2).toPyInt
          | none => 0)
      else none)
    match viaUnit with
    | some r => r
    | none =>
        match pyFloat? m with
        | some v => v.toPyInt
        | none => 0

/-!
## `SSHService` (ssh_service.py)

`execute_command` (lines 77-99) first calls `_get_ssh_client`
(lines 28-32), which probes liveness (`_is_connection_alive`,
lines 34-42: false when `self._client is None`, when the transport is
gone, or when the probe itself throws) and calls `_connect` when the
probe fails; `_connect` (lines 44-75) authenticates with the configured
key only and raises `SSHConnectionError` on any failure (no password
fallback). Back in `execute_command` the command is then executed once
via `exec_command`; any exception — including an `SSHConnectionError`
escaping `_connect` — is caught by the `except Exception` clause and
re-raised as `SSHConnectionError("Command execution failed: ...")`.

One call of `execute_command` is modelled as a function of an `SshWorld`
describing what the outside world would answer: the pre-existing client,
the transport-liveness probe, the outcome `_connect` would have, and the
outcome the single `exec_command` call would have. The trace records the
surfaced result, how many times the remote command was attempted, and
whether a reconnect happened.
-/

/-- `CommandResult`: the (exit status, stdout, stderr) triple of one remote command. -/
structure CmdResult where
  exitCode : Int
  stdout : String
  stderr : String
  deriving Repr, DecidableEq

/-- External circumstances of one `SSHService.execute_command` call. -/
structure SshWorld where
  /-- `self._client is not None` on entry. -/
  hasClient : Bool
  /-- the transport-level liveness probe of the existing client succeeds -/
  transportAlive : Bool
  /-- what `_connect` would do if invoked: `ok` or a raised `SSHConnectionError` message -/
  connectOutcome : Except String Unit
  /-- what the `exec_command` call would do: a result triple or a raised exception message -/
  execOutcome : Except String CmdResult

deriving instance DecidableEq for Except

/-- Observable trace of one `execute_command` call: surfaced result
(`Except` = raised `SSHConnectionError`), number of times the remote
command was attempted, and whether the session was re-established. -/
structure ExecTrace where
  result : Except String CmdResult
  execAttempts : Nat
  reconnected : Bool
  deriving Repr, DecidableEq

/-- `SSHService._is_connection_alive` (lines 34-42). -/
def isConnectionAlive (w : SshWorld) : Bool := w.hasClient && w.transportAlive

/-- `SSHService.execute_command` (lines 77-99): probe liveness, reconnect
when dead, then attempt the remote command exactly once; every failure is
surfaced immediately as `SSHConnectionError`. -/
def executeCommand (w : SshWorld) : ExecTrace :=
  if isConnectionAlive w then
    match w.execOutcome with
    | .ok r => ⟨.ok r, 1, false⟩
    | .error m => ⟨.error ("Command execution failed: " ++ m), 1, false⟩
  else
    match w.connectOutcome with
    | .error m => ⟨.error ("Command execution failed: " ++ m), 0, true⟩
    | .ok _ =>
        match w.execOutcome with
        | .ok r => ⟨.ok r, 1, true⟩
        | .error m => ⟨.error ("Command execution failed: " ++ m), 1, true⟩

/-!
## `DockerService` lifecycle operations (docker_service.py lines 257-333)

`start_container` / `stop_container` / `restart_container` each run one
`docker ...` command through `SSHService.execute_docker_command`
(ssh_service.py lines 101-113, which prepends `"docker "`), return `True`
exactly when the exit status is `0`, and catch every exception with
`except Exception: return False`. The transport is abstracted as a map
from the full command text to the outcome the session would produce. -/

/-- What executing a given full command text over the session would yield:
a `CmdResult` or a raised exception message. -/
def SshExecEnv : Type := String → Except String CmdResult

/-- `SSHService.execute_docker_command` (lines 101-113). -/
def executeDockerCommand (env : SshExecEnv) (dockerArgs : String) :
    Except String CmdResult :=
  env ("docker " ++ dockerArgs)

/-- `DockerService.start_container` (lines 257-279). -/
def startContainer (env : SshExecEnv) (name : String) : Bool :=
  match executeDockerCommand env ("start " ++ name) with
  | .ok r => r.exitCode == 0
  | .error _ => false

/-- `DockerService.stop_container` (lines 281-306); `timeout` is the
force-kill grace period (default 10). -/
def stopContainer (env : SshExecEnv) (name : String) (timeout : Nat) : Bool :=
  match executeDockerCommand env ("stop --time " ++ toString timeout ++ " " ++ name) with
  | .ok r => r.exitCode == 0
  | .error _ => false

/-- `DockerService.restart_container` (lines 308-333). -/
def restartContainer (env : SshExecEnv) (name : String) (timeout : Nat) : Bool :=
  match executeDockerCommand env ("restart --time " ++ toString timeout ++ " " ++ name) with
  | .ok r => r.exitCode == 0
  | .error _ => false

/-!
## Container model (models/container.py)

`Container` is a `@dataclass` whose class body declares the fields
`is_running` (line 55) and `is_healthy` (line 56) and *later* declares
`@property` methods of the same names (lines 66-76). In Python the
property objects replace the class attributes, so the dataclass-generated
`__init__` — which assigns every field on `self` in declaration order —
raises `AttributeError` at the `is_running` assignment (a property with
no setter rejects assignment). Construction of a `Container` therefore
never succeeds. The structure below holds the writable stored fields;
`is_running`/`is_healthy` are the read-only computed properties.
-/

/-- `ContainerStatus` enum (models/container.py lines 9-16). -/
inductive ContainerStatus where
  | running
  | stopped
  | paused
  | restarting
  | error
  | unknown
  deriving Repr, DecidableEq

/-- A parsed `datetime` value. `datetime.fromisoformat` is modelled as an
abstract constructor on the (already `Z`-normalized) text: validation of
the text format is outside the scope of the claims, which only exercise
well-formed timestamps. -/
structure PyDateTime where
  iso : String
  deriving Repr, DecidableEq

/-- Model of `datetime.fromisoformat` (see `PyDateTime`). -/
def isoParse (s : String) : Except PyErr PyDateTime := .ok ⟨s⟩

/-- `ContainerPort` dataclass (models/container.py lines 18-24). -/
structure ContainerPort where
  containerPort : Int
  hostPort : Int
  protocol : String
  hostIp : String
  deriving Repr, DecidableEq

/-- `ContainerStats` dataclass (models/container.py lines 26-37); the
sample timestamp is omitted (never inspected by any claim, and no stats
object is ever attached on the paths in scope). -/
structure ContainerStats where
  cpuPercent : DecimalVal
  memoryUsage : Int
  memoryLimit : Int
  memoryPercent : DecimalVal
  networkRx : Int
  networkTx : Int
  diskRead : Int
  diskWrite : Int
  deriving Repr, DecidableEq

/-- The `created` attribute is dynamically typed: `_create_basic_container`
stores the raw `CreatedAt` text of `docker ps`, while `from_docker_dict`
stores a parsed datetime. -/
inductive CreatedVal where
  | raw (s : String)
  | parsed (t : PyDateTime)
  deriving Repr, DecidableEq

/-- The `ports` attribute is likewise dynamically typed: a list of raw
summary strings on the basic path, a list of `ContainerPort` on the
detailed path. -/
inductive PortsVal where
  | rawList (ps : List String)
  | parsedList (ps : List ContainerPort)
  deriving Repr, DecidableEq

/-- The writable stored fields of the `Container` dataclass
(models/container.py lines 39-64). -/
structure Container where
  id : String
  name : String
  image : String
  status : ContainerStatus
  created : CreatedVal
  started : Option PyDateTime
  ports : PortsVal
  environment : List (String × String)
  labels : List (String × String)
  command : String
  size : String
  networks : List String
  healthStatus : Option String
  restartPolicy : String
  stats : Option ContainerStats
  logsTail : List String
  deriving Repr, DecidableEq

/-- `Container.is_running` property (models/container.py lines 66-69). -/
def Container.isRunning (c : Container) : Bool := c.status == ContainerStatus.running

/-- `Container.is_healthy` property (models/container.py lines 71-76). -/
def Container.isHealthy (c : Container) : Bool :=
  match c.healthStatus with
  | none => c.isRunning
  | some h => h == "healthy"

/-- The `Container` dataclass fields in class-body declaration order
(models/container.py lines 42-64; the duplicated declarations of lines
61-64 re-annotate already-declared fields and do not add entries). -/
inductive ContainerField where
  | fId
  | fName
  | fImage
  | fStatus
  | fCreated
  | fStarted
  | fPorts
  | fEnvironment
  | fLabels
  | fCommand
  | fSize
  | fNetworks
  | fIsRunning
  | fIsHealthy
  | fHealthStatus
  | fRestartPolicy
  | fStats
  | fLogsTail
  deriving Repr, DecidableEq

/-- Declaration order of the dataclass fields, as `__init__` assigns them. -/
def containerFieldOrder : List ContainerField :=
  [.fId, .fName, .fImage, .fStatus, .fCreated, .fStarted, .fPorts,
   .fEnvironment, .fLabels, .fCommand, .fSize, .fNetworks,
   .fIsRunning, .fIsHealthy, .fHealthStatus, .fRestartPolicy, .fStats, .fLogsTail]

/-- Whether `self.<field> = value` succeeds: the same-named read-only
properties `is_running`/`is_healthy` (lines 66-76) shadow their dataclass
fields and reject assignment. -/
def containerFieldAssignable : ContainerField → Bool
  | .fIsRunning => false
  | .fIsHealthy => false
  | _ => true

/-- The dataclass-generated `Container.__init__`: assigns every field in
declaration order on `self`; it succeeds only if every assignment does,
and the `is_running` assignment raises `AttributeError`. -/
def containerInit (c : Container) : Except PyErr Container :=
  if containerFieldOrder.all containerFieldAssignable then .ok c
  else .error .attributeError

/-!
## `DockerService._create_basic_container` and quick-mode listing
(docker_service.py lines 25-120)
-/

/-- One decoded line of `docker ps --format json` output: the fields
`_create_basic_container` reads, each optional (`dict.get` with `''`
default). A line that decodes at all decodes to such a record — the tool
emits one JSON object of string fields per line. -/
structure PsData where
  state : Option String
  id : Option String
  names : Option String
  image : Option String
  createdAt : Option String
  ports : Option String
  command : Option String
  size : Option String
  networks : Option String
  deriving Repr, DecidableEq

/-- `ContainerStatus.EXITED` (docker_service.py line 96) and
`ContainerStatus.CREATED` (line 100) are not members of the
`ContainerStatus` enum (models/container.py lines 9-16): the attribute
lookup raises `AttributeError`. -/
def containerStatusExited : Except PyErr ContainerStatus := .error .attributeError

/-- See `containerStatusExited`. -/
def containerStatusCreated : Except PyErr ContainerStatus := .error .attributeError

/-- The status branch of `_create_basic_container` (lines 92-100). -/
def basicStatus (d : PsData) : Except PyErr ContainerStatus :=
  let state := strLower (d.state.getD "")
  if strContains state "running" then .ok .running
  else if strContains state "exited" then containerStatusExited
  else if strContains state "paused" then .ok .paused
  else containerStatusCreated

/-- Generic splitter on a (nonempty) separator sequence, Python
`str.split(sep)` semantics; the inner fuel equals the scanned length, so
it never runs out. -/
def splitOnCharsGo (sep : List Char) : Nat → List Char → List (List Char)
  | _, [] => [[]]
  | 0, cs => [cs]
  | Nat.succ f, c :: t =>
      if sep.isPrefixOf (c :: t) then
        [] :: splitOnCharsGo sep f ((c :: t).drop sep.length)
      else
        match splitOnCharsGo sep f t with
        | [] => [[c]]
        | h :: r => (c :: h) :: r

/-- Python `s.split(sep)` for a nonempty separator. -/
def splitOnChars (cs sep : List Char) : List (List Char) :=
  if sep.isEmpty then [cs] else splitOnCharsGo sep cs.length cs

/-- Python `s.split(sep)` on strings. -/
def pySplit (s sep : String) : List String :=
  (splitOnChars s.data sep.data).map (fun l => (⟨l⟩ : String))

/-- The argument record `_create_basic_container` passes to `Container(...)`
(lines 103-114); unpassed dataclass fields keep their declared defaults. -/
def basicFields (d : PsData) (status : ContainerStatus) : Container :=
  { id := d.id.getD ""
    name := ⟨(d.names.getD "").data.dropWhile (· == '/')⟩
    image := d.image.getD ""
    status := status
    created := .raw (d.createdAt.getD "")
    started := none
    ports := .rawList (if pyTruthyOpt d.ports then pySplit (d.ports.getD "") ", " else [])
    environment := []
    labels := []
    command := d.command.getD ""
    size := d.size.getD ""
    networks := if pyTruthyOpt d.networks then pySplit (d.networks.getD "") ", " else []
    healthStatus := none
    restartPolicy := "no"
    stats := none
    logsTail := [] }

/-- `DockerService._create_basic_container` (lines 80-120): build the
status, call the constructor, and map any raised exception to `None`
(`except Exception: ... return None`). -/
def createBasicContainer (d : PsData) : Option Container :=
  match (basicStatus d).bind (fun status => containerInit (basicFields d status)) with
  | .ok c => some c
  | .error _ => none

/-- One line of the enumeration payload: either malformed JSON (a
`json.JSONDecodeError` in the loop of lines 49-64) or a decoded record. -/
inductive PsLine where
  | malformed (raw : String)
  | valid (d : PsData)

/-- The quick-mode loop body of `DockerService.list_containers`
(lines 49-64): decode each line, skip undecodable ones with a warning,
build a basic container from each decoded one and keep it when non-`None`. -/
def listContainersQuick : List PsLine → List Container
  | [] => []
  | .malformed _ :: rest => listContainersQuick rest
  | .valid d :: rest =>
      match createBasicContainer d with
      | some c => c :: listContainersQuick rest
      | none => listContainersQuick rest

/-- Number of lines of a payload that decode as JSON. -/
def validLineCount : List PsLine → Nat
  | [] => 0
  | .malformed _ :: rest => validLineCount rest
  | .valid _ :: rest => validLineCount rest + 1

/-!
## `Container.from_docker_dict` (models/container.py lines 117-165) and
`DockerService.get_container_details` (docker_service.py lines 122-158)
-/

/-- Python `str.replace(old, new)` for a single-character `old` (the only
shape this code base uses: replacing the `Z` suffix marker). -/
def pyReplaceChar (s : String) (old : Char) (new : String) : String :=
  ⟨s.data.foldr (fun c acc => if c == old then new.data ++ acc else c :: acc) []⟩

/-- Python `int(s)` on a string: an optionally signed digit run (after
stripping whitespace); anything else raises `ValueError`. -/
def pyIntOfString (s : String) : Except PyErr Int :=
  let cs := trimChars s.data
  let signed : Int × List Char :=
    match cs with
    | '+' :: t => (1, t)
    | '-' :: t => (-1, t)
    | t => (1, t)
  if signed.2.isEmpty then .error .valueError
  else
    match digitsVal? signed.2 with
    | some n => .ok (signed.1 * n)
    | none => .error .valueError

/-- `dict[key]` on a decoded JSON object: `KeyError` when absent. -/
def pyRequired {α : Type} (v : Option α) : Except PyErr α :=
  match v with
  | some a => .ok a
  | none => .error .keyError

/-- Python dict assignment `d[k] = v` on an insertion-ordered dict. -/
def pyDictInsert {α : Type} (d : List (String × α)) (k : String) (v : α) :
    List (String × α) :=
  if d.any (fun p => p.1 == k) then d.map (fun p => if p.1 == k then (k, v) else p)
  else d ++ [(k, v)]

/-- The `State.Health` sub-document of `docker inspect` output. -/
structure InspectHealth where
  status : Option String
  deriving Repr, DecidableEq

/-- The `State` sub-document of `docker inspect` output. -/
structure InspectState where
  status : Option String
  startedAt : Option String
  health : Option InspectHealth
  deriving Repr, DecidableEq

/-- One entry of a `HostConfig.PortBindings` binding list. -/
structure HostBinding where
  hostPort : String
  hostIp : Option String
  deriving Repr, DecidableEq

/-- The decoded single `docker inspect` document, restricted to the fields
`from_docker_dict` reads. `id`, `name`, `configImage` and `created` are
accessed with `dict[...]` (required); the rest with `.get` defaulting. -/
structure InspectData where
  id : Option String
  name : Option String
  configImage : Option String
  configEnv : List String
  configLabels : List (String × String)
  state : Option InspectState
  created : Option String
  portBindings : List (String × Option (List HostBinding))
  restartPolicyName : Option String
  deriving Repr, DecidableEq

/-- The `status_map` lookup of lines 121-129: runtime status text to
enum member, `UNKNOWN` for unmapped values. -/
def statusMapLookup (s : String) : ContainerStatus :=
  if s == "running" then .running
  else if s == "exited" then .stopped
  else if s == "paused" then .paused
  else if s == "restarting" then .restarting
  else if s == "dead" then .error
  else .unknown

/-- One `ContainerPort` from a `PortBindings` entry (lines 137-143);
`int(...)` may raise `ValueError`. -/
def parseOnePort (containerPortKey : String) (b : HostBinding) :
    Except PyErr ContainerPort :=
  let portInfo := splitOnChars containerPortKey.data ['/']
  match portInfo with
  | [] => .error .valueError
  | p :: restInfo =>
      match pyIntOfString ⟨p⟩, pyIntOfString b.hostPort with
      | .error e, _ => .error e
      | _, .error e => .error e
      | .ok cp, .ok hp =>
          .ok { containerPort := cp
                hostPort := hp
                protocol := match restInfo with
                  | pr :: _ => (⟨pr⟩ : String)
                  | [] => "tcp"
                hostIp := b.hostIp.getD "0.0.0.0" }

/-- The port-binding loop of lines 131-143: skip falsy (`None`/empty)
binding lists, flatten the rest in iteration order. -/
def parsePortBindings :
    List (String × Option (List HostBinding)) → Except PyErr (List ContainerPort)
  | [] => .ok []
  | (key, bindings) :: rest =>
      let here : Except PyErr (List ContainerPort) :=
        match bindings with
        | none => .ok []
        | some [] => .ok []
        | some bs => bs.mapM (parseOnePort key)
      match here with
      | .error e => .error e
      | .ok hs =>
          match parsePortBindings rest with
          | .error e => .error e
          | .ok ts => .ok (hs ++ ts)

/-- Lines 147-149: the optional start time. A missing or empty
`StartedAt`, or the epoch-zero sentinel `"0001-01-01T00:00:00Z"`
(meaning "never started"), yields `None`; any other text is parsed as a
timezone-aware timestamp after rewriting the `Z` suffix to `+00:00`. -/
def parseStartedAt (startedAt : Option String) : Except PyErr (Option PyDateTime) :=
  if pyTruthyOpt startedAt && !(startedAt.getD "" == "0001-01-01T00:00:00Z") then
    match isoParse (pyReplaceChar (startedAt.getD "") 'Z' "+00:00") with
    | .error e => .error e
    | .ok t => .ok (some t)
  else .ok none

/-- The `dict(env.split('=', 1) ...)` comprehension of line 159. -/
def envSplitOnce (s : String) : String × String :=
  let cs := s.data
  let pre := cs.takeWhile (fun c => !(c == '='))
  (⟨pre⟩, ⟨cs.drop (pre.length + 1)⟩)

/-- Environment entries containing `=`, split once, into a dict (line 159). -/
def envDict (envs : List String) : List (String × String) :=
  envs.foldl
    (fun acc e =>
      if strContains e "=" then pyDictInsert acc (envSplitOnce e).1 (envSplitOnce e).2
      else acc)
    []

/-- `Container.from_docker_dict` (models/container.py lines 117-165):
status mapping, port parsing, date parsing with sentinel normalization,
then the `cls(...)` call — whose generated `__init__` raises
`AttributeError` (see `containerInit`). Errors propagate in Python
evaluation order. -/
def fromDockerDict (j : InspectData) : Except PyErr Container :=
  let state := j.state.getD ⟨none, none, none⟩
  let status := statusMapLookup (strLower (state.status.getD ""))
  match parsePortBindings j.portBindings with
  | .error e => .error e
  | .ok ports =>
      match pyRequired j.created with
      | .error e => .error e
      | .ok createdTxt =>
          match isoParse (pyReplaceChar createdTxt 'Z' "+00:00") with
          | .error e => .error e
          | .ok created =>
              match parseStartedAt state.startedAt with
              | .error e => .error e
              | .ok started =>
                  match pyRequired j.id, pyRequired j.name, pyRequired j.configImage with
                  | .error e, _, _ => .error e
                  | _, .error e, _ => .error e
                  | _, _, .error e => .error e
                  | .ok idFull, .ok nameRaw, .ok image =>
                      containerInit
                        { id := ⟨idFull.data.take 12⟩
                          name := ⟨nameRaw.data.dropWhile (· == '/')⟩
                          image := image
                          status := status
                          created := .parsed created
                          started := started
                          ports := .parsedList ports
                          environment := envDict j.configEnv
                          labels := j.configLabels
                          command := ""
                          size := ""
                          networks := []
                          healthStatus := state.health.bind (fun h => h.status)
                          restartPolicy := j.restartPolicyName.getD "no"
                          stats := none
                          logsTail := [] }

/-- `DockerService.get_container_details` (docker_service.py lines
122-158), with the `docker inspect` transport exchange and `json.loads`
abstracted into the already-decoded outcome: `none` stands for a nonzero
exit status, a decode failure, or an empty array (`IndexError`); `some j`
for a decoded document. Every exception the body raises — including the
constructor's `AttributeError` — is caught by the generic handlers and
mapped to `None`. -/
def getContainerDetails (decoded : Option InspectData) : Option Container :=
  match decoded with
  | none => none
  | some j =>
      match fromDockerDict j with
      | .ok c => some c
      | .error _ => none

/-!
## `MonitoringService` metrics cache (monitoring_service.py lines 16-153)

`get_system_metrics` keeps an in-memory list `_metrics_cache` and a
`_last_metrics_update` datetime with `_cache_ttl = 60` seconds. The age
test on line 47 reads `(now - self._last_metrics_update).seconds` — the
seconds-*within-a-day* component of the elapsed `timedelta`, i.e. the
elapsed seconds modulo 86400 — not `.total_seconds()`.

The body that builds a fresh snapshot (lines 51-140: five remote commands
whose outputs are parsed with per-field zero defaults) can only exit with
a snapshot value or with a raised exception (caught on line 151, mapping
the whole call to `None`); it is passed in as the `producer` outcome,
which keeps the cache logic — the subject of the claim — fully explicit.
-/

/-- Modelled from the spec: the `SystemMetrics` record that
monitoring_service.py imports from `app.models.system` is not defined
anywhere under the source tree (models/system.py defines other classes);
modelled after spec §3 "MetricsSnapshot": host-level CPU/memory/disk/
network figures plus load averages and uptime, timestamped. -/
structure SystemMetrics where
  timestamp : Int
  cpuPercent : DecimalVal
  memoryPercent : DecimalVal
  memoryUsed : Int
  memoryTotal : Int
  diskPercent : DecimalVal
  diskUsed : Int
  diskTotal : Int
  networkSent : Int
  networkReceived : Int
  loadAverage : List DecimalVal
  uptime : DecimalVal
  deriving Repr, DecidableEq

/-- The mutable monitoring state: the rolling snapshot list and the last
update instant (monitoring_service.py lines 28-31). -/
structure MonitoringState where
  metricsCache : List SystemMetrics
  lastMetricsUpdate : Option Int
  deriving Repr, DecidableEq

/-- State right after `__init__`. -/
def initialMonitoringState : MonitoringState := ⟨[], none⟩

/-- `self._cache_ttl = 60` (line 30). -/
def cacheTtl : Int := 60

/-- Python `timedelta.seconds`: the normalized seconds-within-a-day
component of an elapsed amount, i.e. `elapsed mod 86400` with a
nonnegative result (`Int.emod` has exactly Python's sign convention). -/
def timedeltaSecondsPart (elapsed : Int) : Int := elapsed.emod 86400

/-- The cache-freshness conjunct of line 46-47:
`self._last_metrics_update and (now - self._last_metrics_update).seconds < self._cache_ttl`. -/
def metricsCacheFresh (st : MonitoringState) (now : Int) : Bool :=
  match st.lastMetricsUpdate with
  | none => false
  | some t => timedeltaSecondsPart (now - t) < cacheTtl

/-- Observable outcome of one `get_system_metrics` call. -/
structure MetricsRead where
  value : Option SystemMetrics
  state : MonitoringState
  producerInvoked : Bool
  deriving Repr, DecidableEq

/-- `MonitoringService.get_system_metrics` (lines 34-153): serve
`_metrics_cache[-1]` when `use_cache` is set, the age test passes and the
cache is non-empty; otherwise run the producer — on an exception return
`None` leaving the state untouched, on a snapshot stamp it with `now`,
append it, record the update instant and lazily prune entries older than
24 hours (lines 141-149). -/
def getSystemMetrics (st : MonitoringState) (useCache : Bool) (now : Int)
    (producer : Except String SystemMetrics) : MetricsRead :=
  if useCache && metricsCacheFresh st now && !st.metricsCache.isEmpty then
    { value := st.metricsCache.getLast?, state := st, producerInvoked := false }
  else
    match producer with
    | .error _ => { value := none, state := st, producerInvoked := true }
    | .ok m =>
        let fresh := { m with timestamp := now }
        let pruned := (st.metricsCache ++ [fresh]).filter
          (fun x => decide (now - 86400 < x.timestamp))
        { value := some fresh
          state := { metricsCache := pruned, lastMetricsUpdate := some now }
          producerInvoked := true }

/-!
## `make_glances_request` (glances_proxy.py lines 24-60)

The retry loop iterates `attempt` over `range(max_retries)`. A successful
response returns its JSON payload. `requests.exceptions.HTTPError` (a
non-2xx status raised by `raise_for_status`) and a `json.JSONDecodeError`
re-raise immediately. `ConnectionError` and the generic
`RequestException` record the failure and, when another attempt remains,
sleep `1 * (attempt + 1)` seconds before continuing; `Timeout` records
the failure and continues *without any sleep* (lines 43-46 have no
`time.sleep`). When the loop exhausts, the last recorded failure is
raised. The JSON payload is abstracted to a number; message texts are
kept in simplified form (the originals interpolate host/port/timeout
configuration).
-/

/-- What the `requests.get` exchange of one attempt would yield. -/
inductive GlancesAttempt where
  | connectionErr
  | timeoutErr
  | httpErr (code : Nat)
  | requestErr
  | jsonDecodeErr
  | success (payload : Nat)
  deriving Repr, DecidableEq

/-- Observable outcome of one `make_glances_request` call: surfaced
result (`Except` = raised exception), number of HTTP attempts made, and
the list of backoff sleeps incurred, in order, in seconds. -/
structure GlancesRun where
  result : Except String Nat
  attemptsMade : Nat
  sleeps : List Nat
  deriving Repr, DecidableEq

/-- The `for attempt in range(max_retries)` loop of lines 32-57, one
constructor case per `except` clause, in source order of applicability. -/
def glancesAttemptsLoop (outcome : Nat → GlancesAttempt) (maxRetries : Nat) :
    List Nat → Option String → Nat → List Nat → GlancesRun
  | [], lastExc, made, sleeps =>
      { result := .error
          (lastExc.getD
            ("All " ++ toString maxRetries ++ " attempts to connect to Glances API failed"))
        attemptsMade := made
        sleeps := sleeps }
  | i :: rest, _lastExc, made, sleeps =>
      match outcome i with
      | .success v =>
          { result := .ok v, attemptsMade := made + 1, sleeps := sleeps }
      | .httpErr c =>
          { result := .error ("Glances API HTTP error: " ++ toString c)
            attemptsMade := made + 1, sleeps := sleeps }
      | .jsonDecodeErr =>
          { result := .error "Invalid JSON response from Glances API"
            attemptsMade := made + 1, sleeps := sleeps }
      | .connectionErr =>
          let exc := some ("Cannot connect to Glances API (attempt "
            ++ toString (i + 1) ++ "/" ++ toString maxRetries ++ ")")
          if i < maxRetries - 1 then
            glancesAttemptsLoop outcome maxRetries rest exc (made + 1)
              (sleeps ++ [1 * (i + 1)])
          else
            glancesAttemptsLoop outcome maxRetries rest exc (made + 1) sleeps
      | .timeoutErr =>
          let exc := some ("Glances API request timed out (attempt "
            ++ toString (i + 1) ++ "/" ++ toString maxRetries ++ ")")
          glancesAttemptsLoop outcome maxRetries rest exc (made + 1) sleeps
      | .requestErr =>
          let exc := some ("Glances API request failed (attempt "
            ++ toString (i + 1) ++ "/" ++ toString maxRetries ++ ")")
          if i < maxRetries - 1 then
            glancesAttemptsLoop outcome maxRetries rest exc (made + 1)
              (sleeps ++ [1 * (i + 1)])
          else
            glancesAttemptsLoop outcome maxRetries rest exc (made + 1) sleeps

/-- `make_glances_request(endpoint, max_retries=3)` (lines 24-60), as a
function of the per-attempt outcomes. -/
def makeGlancesRequest (outcome : Nat → GlancesAttempt) (maxRetries : Nat) :
    GlancesRun :=
  glancesAttemptsLoop outcome maxRetries (List.range maxRetries) none 0 []

/-!
## `bulk_container_action` (api/containers.py lines 313-377)

After validating the action name and the non-emptiness of the name list,
the loop runs the chosen lifecycle operation for each requested name in
list order, storing a per-name entry in an (insertion-ordered) result
dict; a raised exception is caught per item and stored as a failed entry,
never aborting the loop. The response carries the all-succeeded flag, the
per-item results, the total and the success count.
-/

/-- What the lifecycle call for one name does: returns `True`, returns
`False`, or raises (the raised message is stored under the `error` key of
the per-item dict; modelled as the message field). -/
inductive BulkItemOutcome where
  | succeeded
  | failed
  | raisedExc (msg : String)
  deriving Repr, DecidableEq

/-- One per-name entry of the bulk result dict. -/
structure BulkItemResult where
  success : Bool
  message : String
  deriving Repr, DecidableEq

/-- The JSON body of the bulk response (lines 364-370). -/
structure BulkResponse where
  success : Bool
  results : List (String × BulkItemResult)
  action : String
  total : Nat
  successful : Nat
  deriving Repr, DecidableEq

/-- `bulk_container_action` for an already-validated action: the
sequential per-name loop of lines 343-360 and the response assembly of
lines 362-370. -/
def bulkContainerAction (perform : String → BulkItemOutcome) (action : String)
    (names : List String) : BulkResponse :=
  let results := names.foldl
    (fun acc name =>
      match perform name with
      | .succeeded =>
          pyDictInsert acc name
            { success := true, message := "Container " ++ action ++ "ed successfully" }
      | .failed =>
          pyDictInsert acc name
            { success := false, message := "Failed to " ++ action ++ " container" }
      | .raisedExc m => pyDictInsert acc name { success := false, message := m })
    []
  { success := results.all (fun p => p.2.success)
    results := results
    action := action
    total := names.length
    successful := (results.filter (fun p => p.2.success)).length }

/-!
## Process Registry & Matcher

Modelled from the spec: the matcher component is absent from the source
tree — only its declarative input, the `MANAGED_SERVICES` table of
config/settings.py (id → name/port/category/vpn_required/container_name),
exists. Spec §4.3 defines the algorithm: three tiers in strict priority
order, first match wins, no scoring — (1) the configured canonical
process name equals the discovered name, (2) the canonical process name
is a substring of the discovered name, (3) the lower-cased descriptor id
is a substring of the lower-cased discovered image reference; no tier
matching yields none, and such a process stays visible (unenriched) in a
full listing.
-/

/-- Modelled from the spec: one `MANAGED_SERVICES` entry (`ServiceDescriptor`,
spec §3): id, display name, target port, category tag, VPN flag, canonical
process name (`container_name` in config/settings.py). -/
structure ServiceDescriptor where
  sid : String
  name : String
  port : Nat
  category : String
  vpnRequired : Bool
  containerName : String
  deriving Repr, DecidableEq

/-- Modelled from the spec: tier 1 — exact equality of the configured
canonical process name with the discovered name. -/
def matchExact (table : List ServiceDescriptor) (procName : String) :
    Option ServiceDescriptor :=
  table.find? (fun d => d.containerName == procName)

/-- Modelled from the spec: tier 2 — the canonical process name occurs
inside the discovered name. -/
def matchSubstringTier (table : List ServiceDescriptor) (procName : String) :
    Option ServiceDescriptor :=
  table.find? (fun d => strContains procName d.containerName)

/-- Modelled from the spec: tier 3 — the lower-cased descriptor id occurs
inside the lower-cased discovered image reference. -/
def matchImageTier (table : List ServiceDescriptor) (image : String) :
    Option ServiceDescriptor :=
  table.find? (fun d => strContains (strLower image) (strLower d.sid))

/-- Modelled from the spec: `match(record) → ServiceDescriptor | none`,
trying the three tiers in strict priority order with first match winning. -/
def matchService (table : List ServiceDescriptor) (procName image : String) :
    Option ServiceDescriptor :=
  match matchExact table procName with
  | some d => some d
  | none =>
      match matchSubstringTier table procName with
      | some d => some d
      | none => matchImageTier table image

/-- Modelled from the spec: a full listing pairs every discovered record
(name, image) with its — possibly absent — matched descriptor; unmatched
records stay in the list. -/
def enrichRecords (table : List ServiceDescriptor)
    (recs : List (String × String)) :
    List ((String × String) × Option ServiceDescriptor) :=
  recs.map (fun r => (r, matchService table r.1 r.2))

/-!
## Concrete fixtures used by the claim theorems
-/

/-- A well-formed running `docker ps --format json` line, shaped after the
`sonarr` managed service of config/settings.py. -/
def psLineSonarr : PsData :=
  { state := some "running"
    id := some "3abf33b140a7"
    names := some "sonarr"
    image := some "linuxserver/sonarr:latest"
    createdAt := some "2024-05-01 10:00:00 +0000 UTC"
    ports := some ""
    command := some "/init"
    size := some "0B"
    networks := some "bridge" }

/-- A well-formed exited `docker ps --format json` line. -/
def psLineRadarrExited : PsData :=
  { state := some "exited"
    id := some "9c01842b77f2"
    names := some "radarr"
    image := some "linuxserver/radarr:latest"
    createdAt := some "2024-05-01 10:00:00 +0000 UTC"
    ports := some ""
    command := some "/init"
    size := some "0B"
    networks := some "bridge" }

/-- A well-formed `docker inspect` document whose `StartedAt` carries the
epoch-zero "never started" sentinel. -/
def inspectSentinel : InspectData :=
  { id := some "3abf33b140a75f8a8f6f1c42"
    name := some "/sonarr"
    configImage := some "linuxserver/sonarr:latest"
    configEnv := ["PATH=/usr/bin"]
    configLabels := []
    state := some
      { status := some "created"
        startedAt := some "0001-01-01T00:00:00Z"
        health := none }
    created := some "2024-05-01T10:00:00Z"
    portBindings := []
    restartPolicyName := some "unless-stopped" }

/-- The same document with a real (non-sentinel) start timestamp and a
running status. -/
def inspectStarted : InspectData :=
  { inspectSentinel with
    state := some
      { status := some "running"
        startedAt := some "2024-05-02T08:30:00Z"
        health := none } }

/-- Two distinguishable metrics snapshots for the cache scenarios. -/
def metricsA : SystemMetrics :=
  { timestamp := 0
    cpuPercent := ⟨125, 1⟩
    memoryPercent := ⟨500, 1⟩
    memoryUsed := 4294967296
    memoryTotal := 8589934592
    diskPercent := ⟨250, 1⟩
    diskUsed := 100
    diskTotal := 400
    networkSent := 0
    networkReceived := 0
    loadAverage := [⟨52, 2⟩, ⟨48, 2⟩, ⟨45, 2⟩]
    uptime := ⟨86400, 0⟩ }

/-- See `metricsA`. -/
def metricsB : SystemMetrics :=
  { metricsA with cpuPercent := ⟨990, 1⟩, memoryUsed := 6442450944 }

/-- Attempt script: the first two fetches time out, the third succeeds. -/
def glancesTwoTimeouts : Nat → GlancesAttempt :=
  fun i => if i < 2 then .timeoutErr else .success 7

/-- Attempt script: the first two fetches are refused, the third succeeds. -/
def glancesTwoRefusals : Nat → GlancesAttempt :=
  fun i => if i < 2 then .connectionErr else .success 7

/-- Attempt script: every fetch gets an HTTP 404 rejection. -/
def glances404 : Nat → GlancesAttempt := fun _ => .httpErr 404

/-- Bulk scenario of the claim: the action on `"b"` fails, the others
succeed. -/
def bulkOutcomeBFails : String → BulkItemOutcome :=
  fun n => if n == "b" then .failed else .succeeded

/-- The `sonarr` entry of `MANAGED_SERVICES` (config/settings.py lines
57-64). -/
def sonarrDescriptor : ServiceDescriptor :=
  { sid := "sonarr", name := "Sonarr", port := 103, category := "media"
    vpnRequired := true, containerName := "sonarr" }

/-- A descriptor whose id `"son"` substring-matches the sonarr image
reference (the competing descriptor of the spec's priority scenario). -/
def sonDescriptor : ServiceDescriptor :=
  { sid := "son", name := "Son", port := 9999, category := "other"
    vpnRequired := false, containerName := "sonplayer" }

/-- A matcher table listing the competing descriptor first, so that only
tier priority — not table order — can pick the exact match. -/
def matcherTable : List ServiceDescriptor := [sonDescriptor, sonarrDescriptor]

/-!
## Fixtures and state values for the transport, cache and bulk scenarios
-/

/-- A world where the client exists, the liveness probe succeeds, and the
single command attempt then raises. -/
def sshProbeOkExecFails : SshWorld :=
  { hasClient := true
    transportAlive := true
    connectOutcome := .ok ()
    execOutcome := .error "Channel closed" }

/-- First metrics read (empty state, producer yields `metricsA`) at t=0. -/
def cacheRead1 : MetricsRead :=
  getSystemMetrics initialMonitoringState true 0 (.ok metricsA)

/-- Cache-using read 30 s after the first (inside the 60 s TTL). -/
def cacheReadWithinTtl : MetricsRead :=
  getSystemMetrics cacheRead1.state true 30 (.ok metricsB)

/-- Cache-using read 120 s after the first (TTL expired, same day). -/
def cacheReadAfterTtl : MetricsRead :=
  getSystemMetrics cacheRead1.state true 120 (.ok metricsB)

/-- Cache-using read exactly one day (86400 s) after the first: the TTL
expired long ago, but `timedelta.seconds` of the elapsed day is `0`. -/
def cacheReadDayLater : MetricsRead :=
  getSystemMetrics cacheRead1.state true 86400 (.ok metricsB)

/-- The enumeration payload of the C3 scenario: two well-formed lines
with one malformed line between them. -/
def payloadMixed : List PsLine :=
  [.valid psLineSonarr, .malformed "not json at all", .valid psLineRadarrExited]

/-- The bulk response of the C6 scenario. -/
def bulkRespBFails : BulkResponse :=
  bulkContainerAction bulkOutcomeBFails "start" ["a", "b", "c"]

/-!
## Helper lemmas
-/

theorem containerInit_fails (c : Container) :
    containerInit c = .error .attributeError := rfl

theorem fromDockerDict_no_record (j : InspectData) :
    (fromDockerDict j).isOk = false := by
  unfold fromDockerDict
  dsimp only
  repeat' split
  all_goals rfl

theorem createBasicContainer_none (d : PsData) :
    createBasicContainer d = none := by
  unfold createBasicContainer
  cases hs : basicStatus d with
  | error e => rfl
  | ok s => rfl

theorem getContainerDetails_none (decoded : Option InspectData) :
    getContainerDetails decoded = none := by
  cases decoded with
  | none => rfl
  | some j =>
      unfold getContainerDetails
      dsimp only
      cases hv : fromDockerDict j with
      | ok c =>
          have h := fromDockerDict_no_record j
          rw [hv] at h
          exact Bool.noConfusion h
      | error e => rfl

theorem execFlag_iff (r : Except String CmdResult) :
    (match r with
      | Except.ok x => x.exitCode == 0
      | Except.error _ => false) = true ↔
      ∃ out err, r = Except.ok ⟨0, out, err⟩ := by
  cases r with
  | ok x =>
      cases x with
      | mk ec o e =>
          constructor
          · intro h
            have hec : ec = 0 := by simpa using h
            exact ⟨o, e, by rw [hec]⟩
          · rintro ⟨o2, e2, h⟩
            cases h
            simp
  | error m =>
      constructor
      · intro h
        exact absurd h (by simp)
      · rintro ⟨o2, e2, h⟩
        cases h

/-!
## Claim theorems
-/

/-- C1, counterexample: in the world where the liveness probe succeeds
and the first command attempt then fails, the claim says the command is
attempted exactly one more time (two attempts in all) before the error
is surfaced; `SSHService.execute_command` in fact surfaces the failure
immediately after the single attempt. -/
theorem executeCommand_no_retry_counterexample :
    ¬ ((executeCommand sshProbeOkExecFails).execAttempts = 2) := by decide

/-- C1 (amended): before every command the session's liveness is probed,
and the manager transparently reconnects exactly when the probe fails
(key-based only); the command itself is then attempted at most once — a
failed reconnect surfaces a `TransportError` with zero command attempts,
and a command attempt that fails after a successful probe surfaces a
`TransportError` immediately, with no second attempt. -/
theorem executeCommand_amended (w : SshWorld) :
    (executeCommand w).execAttempts ≤ 1 ∧
    (executeCommand w).reconnected = !(isConnectionAlive w) ∧
    (isConnectionAlive w = true → ∀ m, w.execOutcome = .error m →
      (executeCommand w).result = .error ("Command execution failed: " ++ m) ∧
      (executeCommand w).execAttempts = 1) ∧
    (isConnectionAlive w = false → ∀ m, w.connectOutcome = .error m →
      (executeCommand w).result = .error ("Command execution failed: " ++ m) ∧
      (executeCommand w).execAttempts = 0) := by
  unfold executeCommand
  cases hca : isConnectionAlive w <;>
    cases ho : w.execOutcome <;>
      cases hco : w.connectOutcome <;>
        simp_all

/-- C1, witness for the amended theorem at the probe-succeeds,
attempt-fails world. -/
theorem executeCommand_amended_witness :
    (executeCommand sshProbeOkExecFails).result
        = .error "Command execution failed: Channel closed" ∧
    (executeCommand sshProbeOkExecFails).execAttempts = 1 :=
  (executeCommand_amended sshProbeOkExecFails).2.2.1 rfl "Channel closed" rfl

/-- C2: `_parse_memory_string` never raises and maps `"0B"` to `0` and
unparsable text to `0`, as claimed — but, against the claim and the
function's own docstring, every `KB`/`MB`/`GB`/`TB`-suffixed string also
maps to `0`: the `'B'` entry of the units dict is tried first, matches
any string ending in `B`, and the leftover prefix (`"512M"`, `"1.5G"`,
...) fails float conversion, returning `0` from inside the loop.
`"512MiB"` maps to `0` as well (`MiB` is not in the unit table, and the
`B` match leaves `"512MI"`). Only plain byte counts survive. -/
theorem parse_memory_string_zeroes :
    parseMemoryString "512MiB" = 0 ∧
    parseMemoryString "512MB" = 0 ∧
    parseMemoryString "1.5GB" = 0 ∧
    parseMemoryString "0B" = 0 ∧
    parseMemoryString "garbage" = 0 ∧
    parseMemoryString "512B" = 512 ∧
    parseMemoryString "512" = 512 := by decide

/-- C3: for the mixed enumeration payload (two well-formed lines, one
malformed line), the claim says quick-mode listing returns one record per
valid line; in fact it returns the empty list — every
`_create_basic_container` call raises (`ContainerStatus.EXITED`/`CREATED`
are missing enum members, and the `Container(...)` constructor itself
raises `AttributeError` on the shadowed `is_running` field) and the
`None` results are silently dropped. -/
theorem quick_listing_drops_every_record :
    validLineCount payloadMixed = 2 ∧
    listContainersQuick payloadMixed = [] ∧
    listContainersQuick [.valid psLineSonarr] = [] := by decide

/-- C4: two cache-using reads within the TTL window invoke the producer
once, and a read after expiry within the same day re-invokes it — but the
age test reads `timedelta.seconds` (the within-day component) instead of
`total_seconds()`, so a cache-using read exactly one day after the last
update sees age `0`, serves the stale snapshot, and does not invoke the
producer, against the claim's "a read after TTL expiry invokes the
producer again". -/
theorem metrics_cache_day_wraparound :
    cacheRead1.producerInvoked = true ∧
    cacheRead1.value = some metricsA ∧
    cacheReadWithinTtl.producerInvoked = false ∧
    cacheReadWithinTtl.value = some metricsA ∧
    cacheReadAfterTtl.producerInvoked = true ∧
    cacheReadDayLater.producerInvoked = false ∧
    cacheReadDayLater.value = some metricsA := by decide

/-- C5, counterexample: for the fetch that times out on the first two
attempts and succeeds on the third, the claim says the successful payload
comes back after exactly 2 backoff delays; the code does return the
payload but sleeps zero times — the `Timeout` handler has no backoff. -/
theorem glances_timeout_backoff_counterexample :
    ¬ ((makeGlancesRequest glancesTwoTimeouts 3).result = .ok 7 ∧
       (makeGlancesRequest glancesTwoTimeouts 3).sleeps.length = 2) := by decide

/-- C5 (amended): a fetch that times out on the first two attempts and
succeeds on the third returns the successful payload after 3 attempts
with zero backoff delays — the linear `(attempt_index + 1) * 1 s` backoff
applies to connection-refused (and generic request) errors only, where
the same script incurs the delays `[1, 2]`; an HTTP error status such as
404 fails immediately with zero retries and zero delays. -/
theorem glances_retry_amended (v : Nat) :
    (makeGlancesRequest (fun i => if i < 2 then .timeoutErr else .success v) 3).result
        = .ok v ∧
    (makeGlancesRequest (fun i => if i < 2 then .timeoutErr else .success v) 3).attemptsMade
        = 3 ∧
    (makeGlancesRequest (fun i => if i < 2 then .timeoutErr else .success v) 3).sleeps
        = [] ∧
    (makeGlancesRequest (fun i => if i < 2 then .connectionErr else .success v) 3).result
        = .ok v ∧
    (makeGlancesRequest (fun i => if i < 2 then .connectionErr else .success v) 3).sleeps
        = [1, 2] ∧
    (makeGlancesRequest glances404 3).result = .error "Glances API HTTP error: 404" ∧
    (makeGlancesRequest glances404 3).attemptsMade = 1 ∧
    (makeGlancesRequest glances404 3).sleeps = [] :=
  ⟨rfl, rfl, rfl, rfl, rfl, rfl, rfl, rfl⟩

/-- C6: the bulk action over `["a", "b", "c"]` where `"b"` fails returns
three per-item results in list order with `"a"`/`"c"` successful and
`"b"` failed; the batch is not aborted, and the response's
`(success, successful, total)` fields distinguish all-succeeded
(`success = true`) from partial (`success = false`, `0 < successful`)
from all-failed (`successful = 0`). -/
theorem bulk_partial_failure :
    bulkRespBFails.results.length = 3 ∧
    bulkRespBFails.results.map Prod.fst = ["a", "b", "c"] ∧
    bulkRespBFails.results.lookup "a"
        = some ⟨true, "Container started successfully"⟩ ∧
    bulkRespBFails.results.lookup "b"
        = some ⟨false, "Failed to start container"⟩ ∧
    bulkRespBFails.results.lookup "c"
        = some ⟨true, "Container started successfully"⟩ ∧
    bulkRespBFails.success = false ∧
    bulkRespBFails.successful = 2 ∧
    bulkRespBFails.total = 3 ∧
    (bulkContainerAction (fun _ => .succeeded) "start" ["a", "b", "c"]).success
        = true ∧
    (bulkContainerAction (fun _ => .succeeded) "start" ["a", "b", "c"]).successful
        = 3 ∧
    (bulkContainerAction (fun _ => .failed) "start" ["a", "b", "c"]).success
        = false ∧
    (bulkContainerAction (fun _ => .failed) "start" ["a", "b", "c"]).successful
        = 0 := by decide

/-- C7: the matcher tries the three tiers in strict priority order with
first match winning: the record named `"sonarr"` with image
`"linuxserver/sonarr:latest"` is matched by the exact tier to the sonarr
descriptor even though the competing descriptor `"son"` — listed first in
the table — would match the image tier; a name containing (but not equal
to) a canonical name falls to the substring tier; an image-only
correspondence falls to the image tier; a record matching no tier yields
`none` yet stays in the enriched full listing, whose length always equals
the record count. -/
theorem matcher_priority_spec :
    matchService matcherTable "sonarr" "linuxserver/sonarr:latest"
        = some sonarrDescriptor ∧
    matchImageTier matcherTable "linuxserver/sonarr:latest" = some sonDescriptor ∧
    matchService matcherTable "sonarr-v4" "unrelated:latest"
        = some sonarrDescriptor ∧
    matchService matcherTable "mystery" "ghcr.io/son-thing:1" = some sonDescriptor ∧
    matchService matcherTable "caddy" "caddy:alpine" = none ∧
    enrichRecords matcherTable
        [("sonarr", "linuxserver/sonarr:latest"), ("caddy", "caddy:alpine")]
      = [(("sonarr", "linuxserver/sonarr:latest"), some sonarrDescriptor),
         (("caddy", "caddy:alpine"), none)] ∧
    ∀ recs : List (String × String),
      (enrichRecords matcherTable recs).length = recs.length := by
  refine ⟨by decide, by decide, by decide, by decide, by decide, by decide, ?_⟩
  intro recs
  simp [enrichRecords]

/-- C8: the claim's invariant presumes records are produced, but no
`ProcessRecord` is ever produced on either path: the `Container`
dataclass constructor always raises `AttributeError` (its `is_running`
field is shadowed by a setter-less property), so basic enumeration maps
every decoded line to `None` and detailed inspection returns `None` for
every document. -/
theorem record_production_always_fails :
    (∀ d : PsData, createBasicContainer d = none) ∧
    (∀ decoded : Option InspectData, getContainerDetails decoded = none) :=
  ⟨createBasicContainer_none, getContainerDetails_none⟩

/-- C9: the start-time parsing of `from_docker_dict` does normalize the
epoch-zero sentinel `"0001-01-01T00:00:00Z"` (and a missing value) to an
absent start time and parses a non-sentinel text as a `Z`-normalized UTC
timestamp — but no record results from detailed inspection: the
constructor call that would carry the parsed value raises
`AttributeError`, so the sentinel document yields an error and the
wrapper maps every document to `None`. -/
theorem started_sentinel_parsed_but_no_record :
    parseStartedAt (some "0001-01-01T00:00:00Z") = .ok none ∧
    parseStartedAt none = .ok none ∧
    parseStartedAt (some "2024-05-02T08:30:00Z")
        = .ok (some ⟨"2024-05-02T08:30:00+00:00"⟩) ∧
    fromDockerDict inspectSentinel = .error .attributeError ∧
    getContainerDetails (some inspectStarted) = none := by decide

/-- C10: `start_container` / `stop_container` / `restart_container`
return a boolean on every path — any raised exception is caught and
mapped to `False`, a nonzero remote exit status yields `False`, and
`True` comes back exactly when the issued `docker` command exits with
status zero. -/
theorem lifecycle_ops_success_iff (env : SshExecEnv) (name : String) (t : Nat) :
    (startContainer env name = true ↔
      ∃ out err, executeDockerCommand env ("start " ++ name)
        = .ok ⟨0, out, err⟩) ∧
    (stopContainer env name t = true ↔
      ∃ out err, executeDockerCommand env ("stop --time " ++ toString t ++ " " ++ name)
        = .ok ⟨0, out, err⟩) ∧
    (restartContainer env name t = true ↔
      ∃ out err, executeDockerCommand env ("restart --time " ++ toString t ++ " " ++ name)
        = .ok ⟨0, out, err⟩) :=
  ⟨execFlag_iff _, execFlag_iff _, execFlag_iff _⟩

end Logan
